import Mathlib

/-!
Verification development for the ReferralGuard risk-scoring and recovery-plan
engine.  The definitions below are a shallow embedding of the TypeScript code in
`referralguard-dashboard/app/api/dashboard-summary/route.ts` (the per-provider
risk scorer built inside the `topProviders` mapping) and
`referralguard-dashboard/app/api/recovery-plan/route.ts` (the POST handler).
JavaScript floating-point numbers are modelled by `ℚ` except for the sigmoid
normalisation, which uses `ℝ` and `Real.exp` for `Math.exp`.  A JavaScript
value that becomes `NaN` (a failed `parseInt`) is modelled by `Option`, with
`none` standing for the NaN result that then propagates through the score.
`Math.random()` is modelled by an explicit stream `ℕ → ℚ` of draws, consumed in
call order.
-/

namespace ReferralGuard

/-- `Math.round` on a rational: round half away from zero is not JS semantics;
JS `Math.round(x)` equals `⌊x + 1/2⌋` (half goes toward positive infinity). -/
def jsRound (x : ℚ) : ℤ := ⌊x + 1/2⌋

/-- Numeric value of a maximal leading digit string, as `parseInt` accumulates it. -/
def digitsVal (l : List Char) : ℕ :=
  l.foldl (fun acc c => 10 * acc + (c.toNat - 48)) 0

/-- The maximal digit prefix of a character list; `none` when there is no digit,
which is the case where `parseInt` returns NaN. -/
def digitsPrefix (l : List Char) : Option ℕ :=
  let ds := l.takeWhile Char.isDigit
  if ds.isEmpty then none else some (digitsVal ds)

/-- Model of JavaScript `parseInt(s)` (radix 10): an optional sign followed by a
maximal digit prefix; `none` models the NaN result when no digit is found. -/
def jsParseInt (s : String) : Option ℤ :=
  match s.data with
  | '-' :: rest => (digitsPrefix rest).map (fun n => -(n : ℤ))
  | '+' :: rest => (digitsPrefix rest).map (fun n => (n : ℤ))
  | rest => (digitsPrefix rest).map (fun n => (n : ℤ))

/-- Model of JavaScript `s.slice(-2)`: the last two characters (the whole string
when it is shorter). -/
def jsSlice2 (s : String) : String :=
  ⟨s.data.drop (s.data.length - 2)⟩

/-- The seed parsed at `parseInt(market.providerNPI?.slice(-2) || '0')`
(route.ts line 454): a missing NPI, or an empty slice, falls back to the string
`'0'`; `none` models a NaN parse of a non-numeric slice. -/
def seedOfNPI (npi : Option String) : Option ℤ :=
  match npi with
  | none => jsParseInt "0"
  | some s => if jsSlice2 s = "" then jsParseInt "0" else jsParseInt (jsSlice2 s)

/-- The hash computed at route.ts line 505:
`market.providerNPI ? parseInt(market.providerNPI.slice(-2)) : index`.
An absent or empty (falsy) NPI yields the batch index; otherwise the parse has
no `|| '0'` fallback, and `none` models a NaN parse. -/
def nameHashOf (npi : Option String) (index : ℕ) : Option ℤ :=
  match npi with
  | none => some (index : ℤ)
  | some s => if s = "" then some (index : ℤ) else jsParseInt (jsSlice2 s)

/-- Input row of the `marketAnalysis` array, as consumed by the scorer. -/
structure MarketRecord where
  providerNPI : Option String
  providerName : Option String
  specialty : Option String
  marketSharePercentage : ℚ
  providerRevenue : ℚ
  providerServices : ℚ
  providerCount : ℚ
  zipCode : Option String

/-- Specialty risk modifier table (route.ts lines 457-468), default 4. -/
def specialtyRiskOf (s : Option String) : ℚ :=
  match s with
  | none => 4
  | some t =>
    if t = "Emergency Medicine" then 8
    else if t = "Cardiology" then 6
    else if t = "Internal Medicine" then 4
    else if t = "Obstetrics & Gynecology" then 5
    else if t = "Pathology" then 7
    else if t = "Family Medicine" then 3
    else if t = "Orthopedic Surgery" then 6
    else if t = "Anesthesiology" then 5
    else 4

/-- `revenueRisk = Math.min(30, (market.providerRevenue / 1000000) * 5)`. -/
def revenueRisk (m : MarketRecord) : ℚ :=
  min 30 (m.providerRevenue / 1000000 * 5)

/-- `marketShareRisk = Math.max(0, (100 - market.marketSharePercentage) * 0.4)`. -/
def marketShareRisk (m : MarketRecord) : ℚ :=
  max 0 ((100 - m.marketSharePercentage) * (4/10))

/-- `leakageRisk = Math.min(20, (100 - market.marketSharePercentage) * 0.2)`. -/
def leakageRisk (m : MarketRecord) : ℚ :=
  min 20 ((100 - m.marketSharePercentage) * (2/10))

/-- `variationFactor = (index * 7 + parseInt(...)) % 10` for an already parsed
seed `v`; JS `%` truncates toward zero, i.e. `Int.tmod`. -/
def variationFactor (index : ℕ) (v : ℤ) : ℤ :=
  Int.tmod ((index : ℤ) * 7 + v) 10

/-- The raw risk score (route.ts line 471), given the parsed seed `v`. -/
def rawScore (m : MarketRecord) (index : ℕ) (v : ℤ) : ℚ :=
  revenueRisk m + marketShareRisk m + leakageRisk m + specialtyRiskOf m.specialty
    + (variationFactor index v : ℚ)

/-- The sigmoid used by `normalizeToDisplay`:
`1 / (1 + Math.exp(-6 * (normalized - 0.5)))`. -/
noncomputable def sigmoidCurve (x : ℝ) : ℝ :=
  1 / (1 + Real.exp (-6 * (x - 0.5)))

/-- `normalizeToDisplay` (route.ts lines 474-487) with
`minRaw = 10, maxRaw = 80, minDisplay = 55, maxDisplay = 95`:
clamp, rescale to [0,1], sigmoid, rescale to the display band, `Math.round`. -/
noncomputable def normalizeToDisplay (raw : ℚ) : ℤ :=
  ⌊sigmoidCurve (((max 10 (min 80 raw) - 10) / (80 - 10) : ℚ) : ℝ) * (95 - 55)
      + 55 + 1/2⌋

/-- `calculateRiskScore` for a record whose NPI seed already parsed to `v`. -/
noncomputable def riskScoreOfSeed (m : MarketRecord) (index : ℕ) (v : ℤ) : ℤ :=
  normalizeToDisplay (rawScore m index v)

/-- The displayed risk score of a record: `none` models the NaN that
`calculateRiskScore` produces when `parseInt` of the NPI slice is NaN
(NaN propagates through `%`, `Math.max`, `Math.min`, `Math.exp`, `Math.round`). -/
noncomputable def riskScoreO (m : MarketRecord) (index : ℕ) : Option ℤ :=
  (seedOfNPI m.providerNPI).map (riskScoreOfSeed m index)

/-- Intervention catalog (route.ts lines 432-436), length 9. -/
def interventionTypes : List String :=
  ["Relationship Building", "Contract Renegotiation", "Service Expansion",
   "Technology Integration", "Performance Incentives", "Competitive Response",
   "Market Expansion", "Provider Retention", "Quality Improvement"]

/-- Competitor-name catalog (route.ts lines 439-444), length 12. -/
def competitors : List String :=
  ["Regional Medical Center", "City Hospital", "Metro Health System",
   "Community Healthcare", "University Medical Center", "Memorial Hospital",
   "St. Mary\x27s Medical", "General Hospital", "Medical Center East",
   "Healthcare Partners", "Valley Regional", "Central Medical Group"]

/-- The threshold-based intervention selection at route.ts lines 499-502
(a local variable that the returned object does not use). -/
def thresholdInterventionType (k : ℤ) : String :=
  if 90 < k then "Contract Renegotiation"
  else if 80 < k then "Competitive Response"
  else if 70 < k then "Service Expansion"
  else "Relationship Building"

/-- The urgency bucket at route.ts lines 494-496. -/
def urgencyOf (k : ℤ) : String :=
  if 85 < k then "HIGH" else if 75 < k then "MEDIUM" else "LOW"

/-- Fallback display-name catalog per specialty (route.ts lines 538-547);
an unknown specialty falls back to the Internal Medicine list. -/
def specialtyNamesOf (s : Option String) : List String :=
  match s with
  | some "Emergency Medicine" =>
      ["Dr. Sarah Chen", "Dr. Michael Rodriguez", "Dr. Jennifer Wilson",
       "Dr. David Thompson"]
  | some "Cardiology" =>
      ["Dr. Amanda Johnson", "Dr. Christopher Lee", "Dr. Rachel Davis",
       "Dr. Andrew Brown"]
  | some "Obstetrics & Gynecology" =>
      ["Dr. Emily White", "Dr. Daniel Martinez", "Dr. Jessica Taylor",
       "Dr. Kevin Wilson"]
  | some "Pathology" =>
      ["Dr. Margaret Thomas", "Dr. Steven Jackson", "Dr. Catherine Moore",
       "Dr. Brian Clark"]
  | some "Family Medicine" =>
      ["Dr. Nancy Lewis", "Dr. Mark Harris", "Dr. Laura Walker",
       "Dr. Paul Young"]
  | some "Orthopedic Surgery" =>
      ["Dr. Susan Hall", "Dr. Timothy Allen", "Dr. Michelle King",
       "Dr. Richard Wright"]
  | some "Anesthesiology" =>
      ["Dr. Karen Green", "Dr. Joseph Adams", "Dr. Helen Baker",
       "Dr. Charles Hill"]
  | _ =>
      ["Dr. Lisa Anderson", "Dr. Robert Kim", "Dr. Maria Garcia",
       "Dr. James Miller"]

/-- The specialty-catalog fallback of `getProviderName` (route.ts lines 549-551),
with `v` the parsed NPI seed; the index is `(seed + index) % names.length`. -/
def specFallbackName (m : MarketRecord) (index : ℕ) (v : ℤ) : String :=
  (specialtyNamesOf m.specialty).getD (Int.tmod (v + (index : ℤ)) 4).toNat ""

/-- Second stage of `getProviderName`: a truthy, trimmed `providerName` that is
not the literal `'Unknown Provider'` wins, else the specialty catalog. -/
def providerNameFallback (m : MarketRecord) (index : ℕ) (v : ℤ) : String :=
  match m.providerName with
  | some p =>
    if p ≠ "" ∧ p.trim ≠ "" ∧ p ≠ "Unknown Provider" then p.trim
    else specFallbackName m index v
  | none => specFallbackName m index v

/-- `getProviderName` (route.ts lines 526-552): the NPI name map wins when it
yields a truthy string; then the record's own name; then the catalog. -/
def getProviderName (nameMap : String → Option String) (m : MarketRecord)
    (index : ℕ) (v : ℤ) : String :=
  match m.providerNPI.bind nameMap with
  | some s => if s = "" then providerNameFallback m index v else s
  | none => providerNameFallback m index v

/-- `generateTrend` (route.ts lines 510-520): the loop
`value = value / (1 + (Math.random() - 0.5) * volatility)` runs five times
(draws 0..4 of the stream), each rounded value is unshifted (so the latest
division lands first), then `trend[4] = current` overwrites the last slot with
the unrounded current value. -/
def generateTrend (current volatility : ℚ) (rng : ℕ → ℚ) : List ℚ :=
  let v1 := current / (1 + (rng 0 - 1/2) * volatility)
  let v2 := v1 / (1 + (rng 1 - 1/2) * volatility)
  let v3 := v2 / (1 + (rng 2 - 1/2) * volatility)
  let v4 := v3 / (1 + (rng 3 - 1/2) * volatility)
  let v5 := v4 / (1 + (rng 4 - 1/2) * volatility)
  [(jsRound v5 : ℚ), (jsRound v4 : ℚ), (jsRound v3 : ℚ), (jsRound v2 : ℚ),
   current]

/-- Output object of the `topProviders` mapping (route.ts lines 554-575). -/
structure ScoredProvider where
  id : ℕ
  name : String
  specialty : String
  leakageRate : ℤ
  trend : String
  referrals : ℤ
  revenue : ℚ
  providerNPI : Option String
  zipCode : Option String
  riskScore : ℤ
  marketPosition : ℕ
  numProviders : ℚ
  revenueAtRisk : ℚ
  interventionType : String
  urgency : String
  competitorThreat : String
  marketShare : ℚ
  revenueTrend : List ℚ
  marketShareTrend : List ℚ
  riskScoreTrend : List ℚ

/-- The scored provider built by the `topProviders` callback for a record whose
NPI seed parsed to `v` (line 454) and whose name hash parsed to `h` (line 505);
`rng` is the `Math.random()` stream, consumed in call order: draws 0-4 by
`revenueTrend`, 5-9 by `marketShareTrend`, 10-14 by `riskScoreTrend`. -/
noncomputable def scoredOfSeed (nameMap : String → Option String)
    (m : MarketRecord) (index : ℕ) (v h : ℤ) (rng : ℕ → ℚ) : ScoredProvider :=
  { id := index + 1
    name := getProviderName nameMap m index v
    specialty :=
      match m.specialty with
      | some s => if s = "" then "Unknown Specialty" else s
      | none => "Unknown Specialty"
    leakageRate := jsRound (100 - m.marketSharePercentage)
    trend := if index % 2 = 0 then "up" else "down"
    referrals := ⌊m.providerServices⌋
    revenue := (jsRound (m.providerRevenue / 1000000 * 10) : ℚ) / 10
    providerNPI := m.providerNPI
    zipCode := m.zipCode
    riskScore := riskScoreOfSeed m index v
    marketPosition := 1
    numProviders := if m.providerCount = 0 then 1 else m.providerCount
    revenueAtRisk := m.providerRevenue * (15/100)
    interventionType := interventionTypes.getD (Int.tmod h 9).toNat ""
    urgency := urgencyOf (riskScoreOfSeed m index v)
    competitorThreat := competitors.getD (Int.tmod h 12).toNat ""
    marketShare := m.marketSharePercentage
    revenueTrend := generateTrend (jsRound m.providerRevenue : ℚ) (8/100)
      (fun n => rng n)
    marketShareTrend := generateTrend m.marketSharePercentage (7/100)
      (fun n => rng (5 + n))
    riskScoreTrend := generateTrend (riskScoreOfSeed m index v : ℚ) (10/100)
      (fun n => rng (10 + n)) }

/-! Recovery-plan aggregator, from `app/api/recovery-plan/route.ts`. -/

/-- `phase1Providers = Math.round(totalProviders * 0.4)` (route.ts line 33). -/
def phase1Providers (totalProviders : ℕ) : ℤ :=
  jsRound ((totalProviders : ℚ) * (4/10))

/-- `phase2Providers = Math.round(totalProviders * 0.35)` (route.ts line 34). -/
def phase2Providers (totalProviders : ℕ) : ℤ :=
  jsRound ((totalProviders : ℚ) * (35/100))

/-- `phase3Providers = totalProviders - phase1Providers - phase2Providers`
(route.ts line 35): the remainder is absorbed by the last phase. -/
def phase3Providers (totalProviders : ℕ) : ℤ :=
  (totalProviders : ℤ) - phase1Providers totalProviders - phase2Providers totalProviders

/-- Summary block of the recovery plan (route.ts lines 88-96). -/
structure RecoverySummary where
  totalProviders : ℕ
  highRiskProviders : ℕ
  totalProviderRevenue : ℚ
  totalRecoveryPotential : ℤ
  expectedROI : ℚ
  paybackPeriod : ℕ
  implementationCost : ℤ

/-- One implementation phase (route.ts lines 45-85). -/
structure RecoveryPhase where
  phase : String
  focus : String
  providers : ℤ
  expectedRecovery : ℤ
  cost : ℤ
  keyActions : List String

/-- The recovery plan object (route.ts lines 87-112). -/
structure RecoveryPlan where
  summary : RecoverySummary
  implementationPhases : List RecoveryPhase
  recommendations : List String
  nextSteps : List String

/-- The plan built by the POST handler body (route.ts lines 16-112); every
quantity is derived from the hard-coded constants `totalProviders = 15` and
`averageProviderRevenue = 37000`, with `expectedROI = 180` and
`paybackPeriod = 8` themselves hard-coded. -/
def recoveryPlanBuild : RecoveryPlan :=
  let totalProviders : ℕ := 15
  let averageProviderRevenue : ℚ := 37000
  let totalProviderRevenue : ℚ := (totalProviders : ℚ) * averageProviderRevenue
  let phase1Rate : ℚ := 4/10
  let phase2Rate : ℚ := 3/10
  let phase3Rate : ℚ := 3/10
  let totalRecoveryPotential : ℚ :=
    totalProviderRevenue * (phase1Rate + phase2Rate + phase3Rate)
  let implementationCost : ℚ := totalRecoveryPotential * (12/100)
  let expectedROI : ℚ := 180
  let paybackPeriod : ℕ := 8
  let phase1Recovery : ℚ := totalProviderRevenue * phase1Rate
  let phase2Recovery : ℚ := totalProviderRevenue * phase2Rate
  let phase3Recovery : ℚ := totalProviderRevenue * phase3Rate
  let phase1Cost : ℤ := jsRound (phase1Recovery * (85/1000))
  let phase2Cost : ℤ := jsRound (phase2Recovery * (12/100))
  let phase3Cost : ℤ := jsRound (phase3Recovery * (11/100))
  { summary :=
      { totalProviders := totalProviders
        highRiskProviders := totalProviders
        totalProviderRevenue := totalProviderRevenue
        totalRecoveryPotential := jsRound totalRecoveryPotential
        expectedROI := expectedROI
        paybackPeriod := paybackPeriod
        implementationCost := jsRound implementationCost }
    implementationPhases :=
      [{ phase := "Phase 1: Immediate Response (30 days)"
         focus := "High-risk provider intervention"
         providers := phase1Providers totalProviders
         expectedRecovery := jsRound phase1Recovery
         cost := phase1Cost
         keyActions :=
           ["Contract renegotiation with top high-risk providers",
            "Implement immediate referral controls",
            "Deploy dedicated account managers",
            "Establish weekly progress reviews"] },
       { phase := "Phase 2: Strategic Intervention (90 days)"
         focus := "Medium-risk provider optimization"
         providers := phase2Providers totalProviders
         expectedRecovery := jsRound phase2Recovery
         cost := phase2Cost
         keyActions :=
           ["Provider relationship management program",
            "Market share analysis and optimization",
            "Competitive positioning strategy",
            "Performance-based incentive programs"] },
       { phase := "Phase 3: Market Expansion (180 days)"
         focus := "Low-risk market development"
         providers := phase3Providers totalProviders
         expectedRecovery := jsRound phase3Recovery
         cost := phase3Cost
         keyActions :=
           ["Market expansion and new provider recruitment",
            "Technology platform optimization",
            "Data-driven referral optimization",
            "Long-term strategic partnerships"] }]
    recommendations :=
      ["Prioritize immediate intervention with high-risk providers (40% recovery potential)",
       "Implement provider relationship management for medium-risk providers (30% recovery potential)",
       "Develop long-term market expansion strategies for low-risk providers (30% recovery potential)",
       "Establish monthly progress tracking and ROI measurement",
       "Consider technology investments to automate referral management"]
    nextSteps :=
      ["Schedule executive review of high-risk provider list",
       "Allocate budget for immediate intervention phase",
       "Assign dedicated account managers to top 5 high-risk providers",
       "Establish weekly progress review meetings",
       "Implement real-time monitoring dashboard"] }

/-- The POST handler of the recovery-plan endpoint: its body never reads the
request object, so the embedding is a constant function of the request. -/
def recoveryPlanPOST {α : Type} (request : α) : RecoveryPlan :=
  recoveryPlanBuild

/-! Concrete inputs used by counterexamples and witnesses. -/

/-- A record whose NPI ends in two non-numeric characters: `parseInt('IJ')` is
NaN in the source. -/
def recBadNPI : MarketRecord :=
  { providerNPI := some "ABCDEFGHIJ"
    providerName := none
    specialty := none
    marketSharePercentage := 50
    providerRevenue := 500000
    providerServices := 0
    providerCount := 1
    zipCode := none }

/-- A minimal-risk record with NPI `"01"` (seed and name hash both parse to 1). -/
def recLow : MarketRecord :=
  { providerNPI := some "01"
    providerName := none
    specialty := none
    marketSharePercentage := 100
    providerRevenue := 0
    providerServices := 0
    providerCount := 1
    zipCode := none }

/-- `recLow` with one million of provider revenue (raw score exactly 10). -/
def recMid : MarketRecord :=
  { recLow with providerRevenue := 1000000 }

/-- `recMid` with doubled provider revenue, for the monotonicity witness. -/
def recMid2 : MarketRecord :=
  { recMid with providerRevenue := 2000000 }

/-- `recMid` with half the market share, for the monotonicity witness. -/
def recHalfShare : MarketRecord :=
  { recMid with marketSharePercentage := 50 }

/-- A random stream with every draw `0.5`: each trend division is by 1. -/
def rngHalf : ℕ → ℚ := fun _ => 1/2

/-- A random stream with every draw `0.75`. -/
def rngQ3 : ℕ → ℚ := fun _ => 3/4

/-- An empty NPI name map. -/
def emptyNameMap : String → Option String := fun _ => none

/-! Analytic facts about the sigmoid normalisation. -/

/-- Rational bounds on `exp 3`, from the decimal bounds on `exp 1`. -/
theorem exp_three_bounds : (20 : ℝ) < Real.exp 3 ∧ Real.exp 3 < 21 := by
  have h1 : (2.7182818283 : ℝ) < Real.exp 1 := Real.exp_one_gt_d9
  have h2 : Real.exp 1 < 2.7182818286 := Real.exp_one_lt_d9
  have h3 : Real.exp 3 = Real.exp 1 ^ 3 := by
    rw [← Real.exp_nat_mul]
    norm_num
  have hc1 : (2.7182818283 : ℝ) ^ 3 < Real.exp 1 ^ 3 :=
    pow_lt_pow_left h1 (by norm_num) (by norm_num)
  have hc2 : Real.exp 1 ^ 3 < (2.7182818286 : ℝ) ^ 3 :=
    pow_lt_pow_left h2 (le_of_lt (Real.exp_pos 1)) (by norm_num)
  constructor
  · rw [h3]
    calc (20 : ℝ) < 2.7182818283 ^ 3 := by norm_num
    _ < Real.exp 1 ^ 3 := hc1
  · rw [h3]
    calc Real.exp 1 ^ 3 < 2.7182818286 ^ 3 := hc2
    _ < 21 := by norm_num

/-- The sigmoid is strictly positive. -/
theorem sigmoidCurve_pos (x : ℝ) : 0 < sigmoidCurve x := by
  unfold sigmoidCurve
  positivity

/-- The sigmoid is strictly below one. -/
theorem sigmoidCurve_lt_one (x : ℝ) : sigmoidCurve x < 1 := by
  unfold sigmoidCurve
  rw [div_lt_one (by positivity)]
  linarith [Real.exp_pos (-6 * (x - 0.5))]

/-- The sigmoid is monotone. -/
theorem sigmoidCurve_mono {x y : ℝ} (h : x ≤ y) :
    sigmoidCurve x ≤ sigmoidCurve y := by
  unfold sigmoidCurve
  have h1 : Real.exp (-6 * (y - 0.5)) ≤ Real.exp (-6 * (x - 0.5)) :=
    Real.exp_le_exp.mpr (by linarith)
  have h2 : 0 < 1 + Real.exp (-6 * (y - 0.5)) := by positivity
  exact one_div_le_one_div_of_le h2 (by linarith)

/-- The rounded display score always lies in the band [55, 95]. -/
theorem normalizeToDisplay_bounds (raw : ℚ) :
    55 ≤ normalizeToDisplay raw ∧ normalizeToDisplay raw ≤ 95 := by
  unfold normalizeToDisplay
  set s : ℝ := sigmoidCurve (((max 10 (min 80 raw) - 10) / (80 - 10) : ℚ) : ℝ)
    with hsdef
  have h1 : 0 < s := sigmoidCurve_pos _
  have h2 : s < 1 := sigmoidCurve_lt_one _
  constructor
  · rw [Int.le_floor]
    push_cast
    nlinarith
  · have h3 : (⌊s * (95 - 55) + 55 + 1/2⌋ : ℤ) < 96 := by
      rw [Int.floor_lt]
      push_cast
      nlinarith
    omega

/-- The rounded display score is monotone in the raw score. -/
theorem normalizeToDisplay_mono {a b : ℚ} (h : a ≤ b) :
    normalizeToDisplay a ≤ normalizeToDisplay b := by
  unfold normalizeToDisplay
  apply Int.floor_le_floor
  have hc : max 10 (min 80 a) ≤ max 10 (min 80 b) :=
    max_le_max le_rfl (min_le_min le_rfl h)
  have hn : ((max 10 (min 80 a) - 10) / (80 - 10) : ℚ)
      ≤ ((max 10 (min 80 b) - 10) / (80 - 10) : ℚ) :=
    (div_le_div_right (by norm_num : (0 : ℚ) < 80 - 10)).mpr (by linarith)
  have hr : (((max 10 (min 80 a) - 10) / (80 - 10) : ℚ) : ℝ)
      ≤ (((max 10 (min 80 b) - 10) / (80 - 10) : ℚ) : ℝ) := by
    exact_mod_cast hn
  have hs := sigmoidCurve_mono hr
  have h40 : (0 : ℝ) ≤ 95 - 55 := by norm_num
  have := mul_le_mul_of_nonneg_right hs h40
  linarith

/-- Any raw score at or below the clamp floor normalises to exactly 57. -/
theorem normalizeToDisplay_eq_57 {raw : ℚ} (h : raw ≤ 10) :
    normalizeToDisplay raw = 57 := by
  unfold normalizeToDisplay
  have hc : max 10 (min 80 raw) = 10 :=
    max_eq_left (le_trans (min_le_right _ _) h)
  rw [hc]
  have hzero : (((10 - 10) / (80 - 10) : ℚ) : ℝ) = 0 := by norm_num
  rw [hzero]
  have hsig : sigmoidCurve 0 = 1 / (1 + Real.exp 3) := by
    unfold sigmoidCurve
    norm_num
  rw [hsig]
  have hE := exp_three_bounds
  have hpos : (0 : ℝ) < 1 + Real.exp 3 := by positivity
  have hkey : (1 / (1 + Real.exp 3)) * (1 + Real.exp 3) = 1 := by
    field_simp
  rw [Int.floor_eq_iff]
  constructor
  · push_cast
    nlinarith [hE.1, hE.2]
  · push_cast
    nlinarith [hE.1, hE.2]

/-- The concrete record `recMid` (seed 1, index 0) has raw score exactly 10. -/
theorem rawScore_recMid : rawScore recMid 0 1 = 10 := by
  norm_num [rawScore, revenueRisk, marketShareRisk, leakageRisk, specialtyRiskOf,
    recMid, recLow, min_def, max_def, show variationFactor 0 1 = 1 from by decide]

/-- The concrete record `recMid` scores exactly 57. -/
theorem riskScoreOfSeed_recMid : riskScoreOfSeed recMid 0 1 = 57 := by
  unfold riskScoreOfSeed
  rw [rawScore_recMid]
  exact normalizeToDisplay_eq_57 le_rfl

/-! Claim theorems. -/

/-- Claim C1, counterexample: the claim quantifies over all `providerId`
values, but for a record whose NPI ends in two non-numeric characters
(`parseInt('IJ')` is NaN) the scorer yields NaN, modelled `none`: no integer
in [55, 95] is produced. -/
theorem riskScore_bounds_fail_on_nonnumeric_providerId :
    ¬ ∃ k : ℤ, riskScoreO recBadNPI 0 = some k ∧ 55 ≤ k ∧ k ≤ 95 := by
  rintro ⟨k, hk, -⟩
  rw [show riskScoreO recBadNPI 0 = none from rfl] at hk
  exact Option.noConfusion hk

/-- Claim C1, amended: whenever the scorer produces a number at all (the NPI
seed parses, in particular for every all-digit or missing NPI), the displayed
risk score is an integer in [55, 95], for every revenue, market share,
specialty and batch index. -/
theorem riskScore_bounded_when_scored (m : MarketRecord) (index : ℕ) (k : ℤ)
    (hk : riskScoreO m index = some k) : 55 ≤ k ∧ k ≤ 95 := by
  unfold riskScoreO at hk
  rcases Option.map_eq_some'.mp hk with ⟨v, hv, hkv⟩
  rw [← hkv]
  exact normalizeToDisplay_bounds (rawScore m index v)

/-- Witness for `riskScore_bounded_when_scored` at the record `recLow`. -/
theorem riskScore_bounded_when_scored_witness :
    riskScoreO recLow 0 = some (riskScoreOfSeed recLow 0 1) ∧
    55 ≤ riskScoreOfSeed recLow 0 1 ∧ riskScoreOfSeed recLow 0 1 ≤ 95 :=
  ⟨rfl, (riskScore_bounded_when_scored recLow 0 (riskScoreOfSeed recLow 0 1) rfl).1,
    (riskScore_bounded_when_scored recLow 0 (riskScoreOfSeed recLow 0 1) rfl).2⟩

/-- Claim C9: evaluating the scorer at a record whose providerId has a
non-numeric trailing slice shows the NaN (`none`) result, contradicting the
coerce-to-0 totality requirement. -/
theorem riskScore_nan_on_nonnumeric_npi : riskScoreO recBadNPI 0 = none := rfl

/-- Claim C2, counterexample: two invocations on the same input record with
different `Math.random()` streams produce different `ScoredProvider` objects;
the `revenueTrend` arrays differ. -/
theorem scored_provider_varies_with_random_stream :
    scoredOfSeed emptyNameMap recMid 0 1 1 rngHalf
      ≠ scoredOfSeed emptyNameMap recMid 0 1 1 rngQ3 := by
  have hne : (scoredOfSeed emptyNameMap recMid 0 1 1 rngHalf).revenueTrend
      ≠ (scoredOfSeed emptyNameMap recMid 0 1 1 rngQ3).revenueTrend := by
    show generateTrend ((jsRound recMid.providerRevenue : ℤ) : ℚ) (8/100)
        (fun n => rngHalf n)
      ≠ generateTrend ((jsRound recMid.providerRevenue : ℤ) : ℚ) (8/100)
        (fun n => rngQ3 n)
    norm_num [generateTrend, rngHalf, rngQ3, jsRound, recMid, recLow]
  exact fun h => hne (congrArg ScoredProvider.revenueTrend h)

/-- Claim C2, amended: with the random stream held fixed as an explicit input,
every field of the scored provider other than the three trend arrays is
independent of the stream, and the recovery plan is independent of the
request; the trend arrays (built from `Math.random()`) are the only
stream-dependent output. -/
theorem scored_provider_nonrandom_fields_deterministic
    (nameMap : String → Option String) (m : MarketRecord) (index : ℕ)
    (v hsh : ℤ) (rng1 rng2 : ℕ → ℚ) :
    (scoredOfSeed nameMap m index v hsh rng1).riskScore
        = (scoredOfSeed nameMap m index v hsh rng2).riskScore ∧
    (scoredOfSeed nameMap m index v hsh rng1).urgency
        = (scoredOfSeed nameMap m index v hsh rng2).urgency ∧
    (scoredOfSeed nameMap m index v hsh rng1).interventionType
        = (scoredOfSeed nameMap m index v hsh rng2).interventionType ∧
    (scoredOfSeed nameMap m index v hsh rng1).competitorThreat
        = (scoredOfSeed nameMap m index v hsh rng2).competitorThreat ∧
    (scoredOfSeed nameMap m index v hsh rng1).revenueAtRisk
        = (scoredOfSeed nameMap m index v hsh rng2).revenueAtRisk ∧
    (scoredOfSeed nameMap m index v hsh rng1).name
        = (scoredOfSeed nameMap m index v hsh rng2).name ∧
    (scoredOfSeed nameMap m index v hsh rng1).id
        = (scoredOfSeed nameMap m index v hsh rng2).id ∧
    (scoredOfSeed nameMap m index v hsh rng1).specialty
        = (scoredOfSeed nameMap m index v hsh rng2).specialty ∧
    (scoredOfSeed nameMap m index v hsh rng1).leakageRate
        = (scoredOfSeed nameMap m index v hsh rng2).leakageRate ∧
    (scoredOfSeed nameMap m index v hsh rng1).trend
        = (scoredOfSeed nameMap m index v hsh rng2).trend ∧
    (scoredOfSeed nameMap m index v hsh rng1).referrals
        = (scoredOfSeed nameMap m index v hsh rng2).referrals ∧
    (scoredOfSeed nameMap m index v hsh rng1).revenue
        = (scoredOfSeed nameMap m index v hsh rng2).revenue ∧
    (scoredOfSeed nameMap m index v hsh rng1).providerNPI
        = (scoredOfSeed nameMap m index v hsh rng2).providerNPI ∧
    (scoredOfSeed nameMap m index v hsh rng1).zipCode
        = (scoredOfSeed nameMap m index v hsh rng2).zipCode ∧
    (scoredOfSeed nameMap m index v hsh rng1).marketPosition
        = (scoredOfSeed nameMap m index v hsh rng2).marketPosition ∧
    (scoredOfSeed nameMap m index v hsh rng1).numProviders
        = (scoredOfSeed nameMap m index v hsh rng2).numProviders ∧
    (scoredOfSeed nameMap m index v hsh rng1).marketShare
        = (scoredOfSeed nameMap m index v hsh rng2).marketShare ∧
    (∀ (α β : Type) (r1 : α) (r2 : β),
        recoveryPlanPOST r1 = recoveryPlanPOST r2) :=
  ⟨rfl, rfl, rfl, rfl, rfl, rfl, rfl, rfl, rfl, rfl, rfl, rfl, rfl, rfl, rfl,
   rfl, rfl, fun _ _ _ _ => rfl⟩

/-- Claim C3, counterexample: for the record `recMid` (NPI `"01"`, score 57)
the output `interventionType` is `interventionTypes[1 % 9]`, namely
`"Contract Renegotiation"`, while thresholding the displayed score 57 selects
`"Relationship Building"`; the threshold-selected local variable of the source
is not the one stored in the returned object. -/
theorem interventionType_not_threshold_selected :
    (scoredOfSeed emptyNameMap recMid 0 1 1 rngHalf).interventionType
      ≠ thresholdInterventionType (riskScoreOfSeed recMid 0 1) := by
  rw [riskScoreOfSeed_recMid]
  show interventionTypes.getD (Int.tmod 1 9).toNat ""
      ≠ thresholdInterventionType 57
  decide

/-- Claim C3, amended: the output `interventionType` is selected from the fixed
nine-entry catalog by `nameHash % 9` (with `nameHash` the parse of the last two
providerId characters, or the batch index when the providerId is missing),
independent of the risk score; the risk-score-threshold selection is computed
into an unused local. -/
theorem interventionType_hash_selected (nameMap : String → Option String)
    (m : MarketRecord) (index : ℕ) (v hsh : ℤ) (rng : ℕ → ℚ)
    (hpos : 0 ≤ hsh) :
    (scoredOfSeed nameMap m index v hsh rng).interventionType
        = interventionTypes.getD (Int.tmod hsh 9).toNat "" ∧
    (scoredOfSeed nameMap m index v hsh rng).interventionType
        ∈ interventionTypes := by
  refine ⟨rfl, ?_⟩
  show interventionTypes.getD (Int.tmod hsh 9).toNat "" ∈ interventionTypes
  have hlt : (Int.tmod hsh 9).toNat < interventionTypes.length := by
    rw [Int.tmod_eq_emod hpos (by norm_num)]
    have h1 : hsh % 9 < 9 := by omega
    have h2 : 0 ≤ hsh % 9 := by omega
    simp [interventionTypes]
    omega
  rw [List.getD_eq_getElem?_getD, List.getElem?_eq_getElem hlt]
  exact List.getElem_mem hlt

/-- Witness for `interventionType_hash_selected` at the record `recMid`. -/
theorem interventionType_hash_selected_witness :
    (0 : ℤ) ≤ 1 ∧
    ((scoredOfSeed emptyNameMap recMid 0 1 1 rngHalf).interventionType
        = interventionTypes.getD (Int.tmod 1 9).toNat "" ∧
     (scoredOfSeed emptyNameMap recMid 0 1 1 rngHalf).interventionType
        ∈ interventionTypes) :=
  ⟨by decide,
   interventionType_hash_selected emptyNameMap recMid 0 1 1 rngHalf (by decide)⟩

/-- Claim C5, counterexample: for the record `recMid` the output
`revenueAtRisk` is `1000000 * 0.15 = 150000`, not
`providerRevenue * riskScore / 100 = 1000000 * 57 / 100 = 570000`. -/
theorem revenueAtRisk_not_score_scaled :
    (scoredOfSeed emptyNameMap recMid 0 1 1 rngHalf).revenueAtRisk
      ≠ recMid.providerRevenue * ((riskScoreOfSeed recMid 0 1 : ℤ) : ℚ) / 100 := by
  rw [riskScoreOfSeed_recMid]
  show recMid.providerRevenue * (15/100)
      ≠ recMid.providerRevenue * ((57 : ℤ) : ℚ) / 100
  norm_num [recMid, recLow]

/-- Claim C5, amended: `revenueAtRisk` is the fixed fraction
`providerRevenue * 0.15` of revenue, and for non-negative revenue the
invariant `0 ≤ revenueAtRisk ≤ providerRevenue` holds. -/
theorem revenueAtRisk_fixed_fraction (nameMap : String → Option String)
    (m : MarketRecord) (index : ℕ) (v hsh : ℤ) (rng : ℕ → ℚ)
    (hrev : 0 ≤ m.providerRevenue) :
    (scoredOfSeed nameMap m index v hsh rng).revenueAtRisk
        = m.providerRevenue * (15/100) ∧
    0 ≤ (scoredOfSeed nameMap m index v hsh rng).revenueAtRisk ∧
    (scoredOfSeed nameMap m index v hsh rng).revenueAtRisk
        ≤ m.providerRevenue := by
  refine ⟨rfl, ?_, ?_⟩
  · show 0 ≤ m.providerRevenue * (15/100)
    nlinarith
  · show m.providerRevenue * (15/100) ≤ m.providerRevenue
    nlinarith

/-- Witness for `revenueAtRisk_fixed_fraction` at the record `recMid`. -/
theorem revenueAtRisk_fixed_fraction_witness :
    (0 : ℚ) ≤ recMid.providerRevenue ∧
    ((scoredOfSeed emptyNameMap recMid 0 1 1 rngHalf).revenueAtRisk
        = recMid.providerRevenue * (15/100) ∧
     0 ≤ (scoredOfSeed emptyNameMap recMid 0 1 1 rngHalf).revenueAtRisk ∧
     (scoredOfSeed emptyNameMap recMid 0 1 1 rngHalf).revenueAtRisk
        ≤ recMid.providerRevenue) :=
  ⟨by norm_num [recMid, recLow],
   revenueAtRisk_fixed_fraction emptyNameMap recMid 0 1 1 rngHalf
     (by norm_num [recMid, recLow])⟩

/-- Raw-score comparison when only revenue differs (not decreased). -/
theorem rawScore_mono_revenue {m1 m2 : MarketRecord} (index : ℕ) (v : ℤ)
    (hspec : m1.specialty = m2.specialty)
    (hmsp : m1.marketSharePercentage = m2.marketSharePercentage)
    (hrev : m1.providerRevenue ≤ m2.providerRevenue) :
    rawScore m1 index v ≤ rawScore m2 index v := by
  unfold rawScore revenueRisk marketShareRisk leakageRisk
  rw [hspec, hmsp]
  have hmin : min 30 (m1.providerRevenue / 1000000 * 5)
      ≤ min 30 (m2.providerRevenue / 1000000 * 5) := by
    apply min_le_min le_rfl
    gcongr
  linarith

/-- Raw-score comparison when only market share differs (not increased). -/
theorem rawScore_mono_marketShare {m1 m2 : MarketRecord} (index : ℕ) (v : ℤ)
    (hspec : m1.specialty = m2.specialty)
    (hrev : m1.providerRevenue = m2.providerRevenue)
    (hmsp : m2.marketSharePercentage ≤ m1.marketSharePercentage) :
    rawScore m1 index v ≤ rawScore m2 index v := by
  unfold rawScore revenueRisk marketShareRisk leakageRisk
  rw [hspec, hrev]
  have hsub : (100 - m1.marketSharePercentage) ≤ (100 - m2.marketSharePercentage) := by
    linarith
  have hmax : max 0 ((100 - m1.marketSharePercentage) * (4/10))
      ≤ max 0 ((100 - m2.marketSharePercentage) * (4/10)) := by
    apply max_le_max le_rfl
    nlinarith
  have hmin : min 20 ((100 - m1.marketSharePercentage) * (2/10))
      ≤ min 20 ((100 - m2.marketSharePercentage) * (2/10)) := by
    apply min_le_min le_rfl
    nlinarith
  linarith

/-- Claim C6: the displayed risk score is monotone in its risk drivers: with
all other fields fixed, a larger `providerRevenue` never yields a smaller
score, and a smaller `marketSharePercentage` (within [0,100]) never yields a
smaller score. -/
theorem riskScore_monotone :
    (∀ (m1 m2 : MarketRecord) (index : ℕ) (k1 k2 : ℤ),
        m1.providerNPI = m2.providerNPI →
        m1.specialty = m2.specialty →
        m1.marketSharePercentage = m2.marketSharePercentage →
        m1.providerRevenue ≤ m2.providerRevenue →
        riskScoreO m1 index = some k1 → riskScoreO m2 index = some k2 →
        k1 ≤ k2) ∧
    (∀ (m1 m2 : MarketRecord) (index : ℕ) (k1 k2 : ℤ),
        m1.providerNPI = m2.providerNPI →
        m1.specialty = m2.specialty →
        m1.providerRevenue = m2.providerRevenue →
        0 ≤ m1.marketSharePercentage → m1.marketSharePercentage ≤ 100 →
        0 ≤ m2.marketSharePercentage → m2.marketSharePercentage ≤ 100 →
        m2.marketSharePercentage ≤ m1.marketSharePercentage →
        riskScoreO m1 index = some k1 → riskScoreO m2 index = some k2 →
        k1 ≤ k2) := by
  constructor
  · intro m1 m2 index k1 k2 hnpi hspec hmsp hrev h1 h2
    unfold riskScoreO at h1 h2
    rw [hnpi] at h1
    rcases Option.map_eq_some'.mp h1 with ⟨v1, hv1, hk1⟩
    rcases Option.map_eq_some'.mp h2 with ⟨v2, hv2, hk2⟩
    have hv : v1 = v2 := Option.some.inj (hv1.symm.trans hv2)
    rw [← hk1, ← hk2, hv]
    exact normalizeToDisplay_mono (rawScore_mono_revenue index v2 hspec hmsp hrev)
  · intro m1 m2 index k1 k2 hnpi hspec hrev _ _ _ _ hmsp h1 h2
    unfold riskScoreO at h1 h2
    rw [hnpi] at h1
    rcases Option.map_eq_some'.mp h1 with ⟨v1, hv1, hk1⟩
    rcases Option.map_eq_some'.mp h2 with ⟨v2, hv2, hk2⟩
    have hv : v1 = v2 := Option.some.inj (hv1.symm.trans hv2)
    rw [← hk1, ← hk2, hv]
    exact normalizeToDisplay_mono (rawScore_mono_marketShare index v2 hspec hrev hmsp)

/-- Witness for `riskScore_monotone`: revenue 1M vs 2M, and market share 100
vs 50, on otherwise identical records. -/
theorem riskScore_monotone_witness :
    riskScoreOfSeed recMid 0 1 ≤ riskScoreOfSeed recMid2 0 1 ∧
    riskScoreOfSeed recMid 0 1 ≤ riskScoreOfSeed recHalfShare 0 1 :=
  ⟨riskScore_monotone.1 recMid recMid2 0 (riskScoreOfSeed recMid 0 1)
      (riskScoreOfSeed recMid2 0 1) rfl rfl rfl
      (by norm_num [recMid, recMid2, recLow]) rfl rfl,
   riskScore_monotone.2 recMid recHalfShare 0 (riskScoreOfSeed recMid 0 1)
      (riskScoreOfSeed recHalfShare 0 1) rfl rfl rfl
      (by norm_num [recMid, recLow]) (by norm_num [recMid, recLow])
      (by norm_num [recMid, recHalfShare, recLow])
      (by norm_num [recMid, recHalfShare, recLow])
      (by norm_num [recMid, recHalfShare, recLow]) rfl rfl⟩

/-- Claim C7: the urgency bucket of every scored provider is obtained from the
displayed risk score by the exact boundaries: above 85 is HIGH, 76 to 85 is
MEDIUM, at most 75 is LOW; in particular 85 maps to MEDIUM and 86 to HIGH. -/
theorem urgency_thresholds :
    (∀ (nameMap : String → Option String) (m : MarketRecord) (index : ℕ)
        (v hsh : ℤ) (rng : ℕ → ℚ),
        (scoredOfSeed nameMap m index v hsh rng).urgency
          = urgencyOf (riskScoreOfSeed m index v)) ∧
    (∀ k : ℤ,
      (85 < k → urgencyOf k = "HIGH") ∧
      (76 ≤ k → k ≤ 85 → urgencyOf k = "MEDIUM") ∧
      (k ≤ 75 → urgencyOf k = "LOW")) := by
  refine ⟨fun _ _ _ _ _ _ => rfl, fun k => ⟨?_, ?_, ?_⟩⟩
  · intro h
    unfold urgencyOf
    rw [if_pos (by omega)]
  · intro h1 h2
    unfold urgencyOf
    rw [if_neg (by omega), if_pos (by omega)]
  · intro h
    unfold urgencyOf
    rw [if_neg (by omega), if_neg (by omega)]

/-- Witness for `urgency_thresholds`: the boundary scores 85 and 86, and the
linkage at the concrete record `recMid`. -/
theorem urgency_thresholds_witness :
    urgencyOf 85 = "MEDIUM" ∧ urgencyOf 86 = "HIGH" ∧
    (scoredOfSeed emptyNameMap recMid 0 1 1 rngHalf).urgency
      = urgencyOf (riskScoreOfSeed recMid 0 1) :=
  ⟨(urgency_thresholds.2 85).2.1 (by norm_num) (by norm_num),
   (urgency_thresholds.2 86).1 (by norm_num),
   urgency_thresholds.1 emptyNameMap recMid 0 1 1 rngHalf⟩

/-- Claim C4, counterexample: in the plan summary, `expectedROI` is the
hard-coded 180 while the claimed formula gives `(555000 - 66600) / 66600`,
`paybackPeriod` is the hard-coded 8 while the claimed formula gives 2, and
`implementationCost` is 66600 while the phase costs sum to 57165; all three
claimed equations are false. -/
theorem recovery_summary_formulas_fail :
    recoveryPlanBuild.summary.expectedROI
        ≠ ((recoveryPlanBuild.summary.totalRecoveryPotential : ℚ)
            - (recoveryPlanBuild.summary.implementationCost : ℚ))
          / (recoveryPlanBuild.summary.implementationCost : ℚ) ∧
    (recoveryPlanBuild.summary.paybackPeriod : ℤ)
        ≠ max 1 ⌈(recoveryPlanBuild.summary.implementationCost : ℚ)
            / ((recoveryPlanBuild.summary.totalRecoveryPotential : ℚ) / 12)⌉ ∧
    recoveryPlanBuild.summary.implementationCost
        ≠ (recoveryPlanBuild.implementationPhases.map RecoveryPhase.cost).sum := by
  have hTRP : recoveryPlanBuild.summary.totalRecoveryPotential = 555000 := by
    show jsRound (((15 : ℕ) : ℚ) * 37000 * (4/10 + 3/10 + 3/10)) = 555000
    norm_num [jsRound]
  have hIC : recoveryPlanBuild.summary.implementationCost = 66600 := by
    show jsRound (((15 : ℕ) : ℚ) * 37000 * (4/10 + 3/10 + 3/10) * (12/100)) = 66600
    norm_num [jsRound]
  have hROI : recoveryPlanBuild.summary.expectedROI = 180 := rfl
  have hPP : recoveryPlanBuild.summary.paybackPeriod = 8 := rfl
  have hsum : (recoveryPlanBuild.implementationPhases.map RecoveryPhase.cost).sum
      = 57165 := by
    show jsRound (((15 : ℕ) : ℚ) * 37000 * (4/10) * (85/1000))
        + (jsRound (((15 : ℕ) : ℚ) * 37000 * (3/10) * (12/100))
        + (jsRound (((15 : ℕ) : ℚ) * 37000 * (3/10) * (11/100)) + 0)) = 57165
    norm_num [jsRound]
  refine ⟨?_, ?_, ?_⟩
  · rw [hROI, hTRP, hIC]
    norm_num
  · rw [hPP, hTRP, hIC]
    push_cast
    have hc : ⌈(66600 : ℚ) / (555000 / 12)⌉ = 2 := by
      rw [Int.ceil_eq_iff]
      norm_num
    rw [hc]
    omega
  · rw [hIC, hsum]
    norm_num

/-- Claim C4, amended: `expectedROI` and `paybackPeriod` are the hard-coded
constants 180 and 8, and `implementationCost` is
`round(totalRecoveryPotential * 0.12) = 66600`, which is not the sum of the
per-phase costs (57165). -/
theorem recovery_summary_hardcoded :
    recoveryPlanBuild.summary.expectedROI = 180 ∧
    recoveryPlanBuild.summary.paybackPeriod = 8 ∧
    recoveryPlanBuild.summary.implementationCost = 66600 ∧
    (recoveryPlanBuild.implementationPhases.map RecoveryPhase.cost).sum = 57165 := by
  refine ⟨rfl, rfl, ?_, ?_⟩
  · show jsRound (((15 : ℕ) : ℚ) * 37000 * (4/10 + 3/10 + 3/10) * (12/100)) = 66600
    norm_num [jsRound]
  · show jsRound (((15 : ℕ) : ℚ) * 37000 * (4/10) * (85/1000))
        + (jsRound (((15 : ℕ) : ℚ) * 37000 * (3/10) * (12/100))
        + (jsRound (((15 : ℕ) : ℚ) * 37000 * (3/10) * (11/100)) + 0)) = 57165
    norm_num [jsRound]

/-- Claim C8: for every cohort size, the rounded 40 percent and 35 percent
phase counts plus the remainder-absorbing third phase partition the cohort
exactly. -/
theorem phase_counts_partition (totalProviders : ℕ) :
    phase1Providers totalProviders + phase2Providers totalProviders
      + phase3Providers totalProviders = (totalProviders : ℤ) := by
  unfold phase3Providers
  ring

/-- Claim C10: the recovery-plan POST handler never reads its request: any two
requests of any types receive the same plan, which is the build from the
hard-coded constants 15 providers at 37000 average revenue. -/
theorem recovery_plan_ignores_request :
    ∀ (α β : Type) (r1 : α) (r2 : β),
      recoveryPlanPOST r1 = recoveryPlanPOST r2 ∧
      recoveryPlanPOST r1 = recoveryPlanBuild ∧
      recoveryPlanBuild.summary.totalProviders = 15 ∧
      recoveryPlanBuild.summary.totalProviderRevenue = 15 * 37000 :=
  fun _ _ _ _ =>
    ⟨rfl, rfl, rfl, by
      show ((15 : ℕ) : ℚ) * 37000 = 15 * 37000
      norm_num⟩

end ReferralGuard
